import Mathlib

/-!
Verification of the `rm_serial_driver` serial-protocol driver
(`src/rm_serial_driver/src/rm_serial_driver.cpp`).

Bytes are modelled as `Nat` (values `< 256` where it matters), byte buffers
as `List Nat`, 32-bit float fields by their little-endian 4-byte bit
patterns (`Nat < 2^32`), and the cached present-color as `Int`
(initialized to `-1`).

The checksum engine (`crc.hpp`) and the packet codec (`packet.hpp`,
`fromVector`/`toVector` and the packed struct layouts) are declared by the
repository but their sources are not under `src/`; those definitions are
modelled from the spec (sections 4.1, 4.2 and the wire-format table in
section 6) and are marked `Modelled from the spec:` below.
-/

namespace RmSerialDriver

/-- Modelled from the spec: the CRC-16 lookup-table entry for index `i`
(standard reflected table-driven CRC-16; fixed polynomial constant).
`crc.hpp`/`crc.cpp` are not under `src/`. -/
def crcTableEntry (i : Nat) : Nat :=
  (List.range 8).foldl (fun c _ => if c % 2 = 1 then (c / 2) ^^^ 0x8408 else c / 2) i

/-- Modelled from the spec: one table-driven CRC-16 update step for byte `b`. -/
def crc16Step (crc b : Nat) : Nat :=
  (crc / 256) ^^^ crcTableEntry ((crc ^^^ b) % 256)

/-- Modelled from the spec: `Get_CRC16_Check_Sum` — table-driven CRC-16 over a
byte span, starting from the fixed initial value. -/
def Get_CRC16_Check_Sum (bytes : List Nat) (init : Nat) : Nat :=
  bytes.foldl crc16Step init

/-- Modelled from the spec: the fixed CRC-16 initial value constant. -/
def CRC16_INIT : Nat := 0xFFFF

/-- Modelled from the spec: `compute(bytes) -> uint16` — the pure CRC-16 of a
byte span (section 4.1). -/
def compute (bytes : List Nat) : Nat := Get_CRC16_Check_Sum bytes CRC16_INIT

/-- Modelled from the spec: `Append_CRC16_Check_Sum` / `append(bytes)` —
computes the checksum over all bytes preceding the trailing 2-byte checksum
field and writes it there, low byte first (little-endian).  An input shorter
than the checksum field is the spec's `InvalidInput` programming error,
modelled as an early return leaving the buffer unchanged. -/
def Append_CRC16_Check_Sum (B : List Nat) : List Nat :=
  if B.length < 2 then B
  else
    B.take (B.length - 2) ++
      [compute (B.take (B.length - 2)) % 256,
       compute (B.take (B.length - 2)) / 256 % 256]

/-- Modelled from the spec: `Verify_CRC16_Check_Sum` / `verify(bytes)` —
recomputes the checksum over all bytes except the trailing 2-byte field and
compares it against the stored little-endian value; an input shorter than the
checksum field verifies as false. -/
def Verify_CRC16_Check_Sum (B : List Nat) : Bool :=
  decide (2 ≤ B.length) &&
    (B.getD (B.length - 2) 0 == compute (B.take (B.length - 2)) % 256) &&
    (B.getD (B.length - 1) 0 == compute (B.take (B.length - 2)) / 256 % 256)

/-- Appending the two checksum bytes produced from a body `L` yields a buffer
that verifies. -/
lemma verify_body_append (L : List Nat) :
    Verify_CRC16_Check_Sum (L ++ [compute L % 256, compute L / 256 % 256]) = true := by
  unfold Verify_CRC16_Check_Sum
  have hlen : (L ++ [compute L % 256, compute L / 256 % 256]).length = L.length + 2 := by
    simp
  rw [hlen]
  have h2 : L.length + 2 - 2 = L.length := by omega
  have h1 : L.length + 2 - 1 = L.length + 1 := by omega
  rw [h2, h1]
  have htake : (L ++ [compute L % 256, compute L / 256 % 256]).take L.length = L := by
    simp [List.take_left]
  have hget0 : (L ++ [compute L % 256, compute L / 256 % 256]).getD L.length 0
      = compute L % 256 := by
    rw [List.getD_append_right _ _ _ _ (Nat.le_refl _)]
    simp
  have hget1 : (L ++ [compute L % 256, compute L / 256 % 256]).getD (L.length + 1) 0
      = compute L / 256 % 256 := by
    rw [List.getD_append_right _ _ _ _ (by omega)]
    simp
  rw [htake, hget0, hget1]
  simp

/-- Packet-codec failure kind (spec section 7). -/
inductive PacketError
  | MalformedPacket
deriving DecidableEq

/-- One inbound telemetry frame (spec section 3); `pitch`/`yaw` carry the
32-bit float bit patterns. -/
structure ReceivePacket where
  header : Nat
  robot_color : Nat
  pitch : Nat
  yaw : Nat
  checksum : Nat
deriving DecidableEq

/-- Little-endian 4-byte serialization of a 32-bit word. -/
def u32le (w : Nat) : List Nat :=
  [w % 256, w / 256 % 256, w / 256 ^ 2 % 256, w / 256 ^ 3 % 256]

/-- Little-endian 32-bit word from 4 bytes. -/
def u32ofBytes (b0 b1 b2 b3 : Nat) : Nat :=
  b0 + 256 * b1 + 256 ^ 2 * b2 + 256 ^ 3 * b3

/-- Little-endian 16-bit word from 2 bytes. -/
def u16ofBytes (b0 b1 : Nat) : Nat := b0 + 256 * b1

/-- Modelled from the spec: `fromVector` / `decode_receive` (`packet.hpp` is
not under `src/`) — requires the buffer length to equal
`sizeof(ReceivePacket)` = 12, reinterprets the bytes into the declared fields
in order, little-endian, and fails with `MalformedPacket` on a length
mismatch. -/
def fromVector (bytes : List Nat) : Except PacketError ReceivePacket :=
  match bytes with
  | [h, rc, p0, p1, p2, p3, y0, y1, y2, y3, c0, c1] =>
      .ok ⟨h, rc, u32ofBytes p0 p1 p2 p3, u32ofBytes y0 y1 y2 y3, u16ofBytes c0 c1⟩
  | _ => .error .MalformedPacket

/-- One outbound command frame (spec section 3); float fields carry 32-bit
bit patterns. -/
structure SendPacket where
  target_found : Bool
  target_color : Bool
  task_mode : Nat
  x : Nat
  y : Nat
  z : Nat
  vx : Nat
  vy : Nat
  vz : Nat
  checksum : Nat
deriving DecidableEq

/-- Modelled from the spec: `toVector` (`packet.hpp` is not under `src/`) —
serializes a `SendPacket` into its packed little-endian 29-byte wire layout
(spec section 6 table): target_found at 0, target_color at 1, task_mode at 2,
x/y/z at 3, vx/vy/vz at 15, checksum at 27. -/
def toVector (p : SendPacket) : List Nat :=
  [if p.target_found then 1 else 0, if p.target_color then 1 else 0, p.task_mode % 256]
    ++ u32le p.x ++ u32le p.y ++ u32le p.z
    ++ u32le p.vx ++ u32le p.vy ++ u32le p.vz
    ++ [p.checksum % 256, p.checksum / 256 % 256]

/-- The outbound command message (`auto_aim_interfaces::msg::Target`):
target-found flag and 3D position/velocity as 32-bit float bit patterns. -/
structure Target where
  target_found : Bool
  x : Nat
  y : Nat
  z : Nat
  vx : Nat
  vy : Nat
  vz : Nat

/-- Outcome of one invocation of the send path. -/
inductive SendOutcome
  | sent
  | sendFailed
deriving DecidableEq

/-- Observable effects of one `sendData` invocation: the byte frames written
to the port (in order), whether `reopenPort` was invoked, whether the error
log was emitted, whether the latency message was published, and the
outcome. -/
structure SendResult where
  frames : List (List Nat)
  reconnected : Bool
  error_logged : Bool
  latency_published : Bool
  outcome : SendOutcome

/-- Model of `RMSerialDriver::sendData` (source lines 133-159): builds a `SendPacket`
from the message with `target_color := (present_color_ == 0)` and
`task_mode := 0`, appends the CRC-16 checksum over the struct bytes,
serializes it and writes it once; `writeOk` models whether the port write
raised.  The catch branch logs the error and calls `reopenPort`; the success
branch publishes the latency. -/
def sendData (present_color : Int) (msg : Target) (writeOk : Bool) : SendResult :=
  { frames := [Append_CRC16_Check_Sum (toVector
      { target_found := msg.target_found
        target_color := present_color == 0
        task_mode := 0
        x := msg.x, y := msg.y, z := msg.z
        vx := msg.vx, vy := msg.vy, vz := msg.vz
        checksum := 0 })]
    reconnected := !writeOk
    error_logged := !writeOk
    latency_published := writeOk
    outcome := if writeOk then .sent else .sendFailed }

/-- Appending over a buffer whose last two bytes are placeholders replaces
them with the checksum of the body. -/
lemma append_body (L : List Nat) (a b : Nat) :
    Append_CRC16_Check_Sum (L ++ [a, b])
      = L ++ [compute L % 256, compute L / 256 % 256] := by
  unfold Append_CRC16_Check_Sum
  rw [if_neg (by simp)]
  have hlen : (L ++ [a, b]).length - 2 = L.length := by simp
  rw [hlen, List.take_left]

/-- Observable events of the receive loop, in order: warnings for invalid
header bytes, frames handed to the packet decoder, CRC failures, published
telemetry, and invocations of the color-change collaborator. -/
inductive Event
  | warnInvalidHeader (b : Nat)
  | decodeCall (frame : List Nat)
  | malformed
  | crcError
  | telemetry (pitch yaw : Nat)
  | colorRequest (color : Nat)
deriving DecidableEq

/-- Observable outcome of `RMSerialDriver::requestforChangeColor`: the
resulting cached present-color, how many `set_parameters` calls were made,
whether a failure was logged, and whether the update succeeded. -/
structure ColorReqResult where
  present_color : Int
  set_param_calls : Nat
  logged_failure : Bool
  success : Bool
deriving DecidableEq

/-- Model of `RMSerialDriver::requestforChangeColor` (source lines 260-282):
`serviceReady` models `auto_aim_param_client_->service_is_ready()` and
`setSuccess` the `successful` flag reported for the `set_parameters`
request.  On success the cached present-color becomes the requested color;
on a rejected request the failure is logged and the cache is untouched; when
the service is not ready no request is made, the failure is logged (and the
call sleeps 1 second). -/
def requestforChangeColor (serviceReady setSuccess : Bool) (present_color : Int)
    (color : Nat) : ColorReqResult :=
  if serviceReady then
    if setSuccess then
      { present_color := (color : Int), set_param_calls := 1,
        logged_failure := false, success := true }
    else
      { present_color := present_color, set_param_calls := 1,
        logged_failure := true, success := false }
  else
    { present_color := present_color, set_param_calls := 0,
      logged_failure := true, success := false }

/-- Model of `RMSerialDriver::receiveData` (source lines 89-131): reads one header
byte per iteration; a byte not equal to `0x5A` is logged and dropped.  On
`0x5A` it reads the remaining `sizeof(ReceivePacket) - 1 = 11` body bytes,
prepends the header, decodes via `fromVector`, and verifies the CRC-16: on
success it publishes telemetry and, when the decoded `robot_color` differs
from the cached present-color, invokes `requestforChangeColor`; on CRC
failure it logs the error and continues.  `input` is the finite inbound byte
stream (the loop blocks, i.e. stops, when too few bytes remain), `pc` the
cached present-color, and `orc` an oracle of
(service-ready, set-successful) outcomes consumed by successive
color-change requests. -/
def receiveLoop (input : List Nat) (pc : Int) (orc : List (Bool × Bool)) : List Event :=
  match input with
  | [] => []
  | b :: rest =>
    if b == 0x5A then
      if 11 ≤ rest.length then
        match fromVector (b :: rest.take 11) with
        | .error _ =>
            Event.decodeCall (b :: rest.take 11) :: Event.malformed ::
              receiveLoop (rest.drop 11) pc orc
        | .ok packet =>
            if Verify_CRC16_Check_Sum (b :: rest.take 11) then
              if (packet.robot_color : Int) ≠ pc then
                Event.decodeCall (b :: rest.take 11) ::
                  Event.telemetry packet.pitch packet.yaw ::
                  Event.colorRequest packet.robot_color ::
                  receiveLoop (rest.drop 11)
                    (requestforChangeColor (orc.headD (false, false)).1
                      (orc.headD (false, false)).2 pc packet.robot_color).present_color
                    orc.tail
              else
                Event.decodeCall (b :: rest.take 11) ::
                  Event.telemetry packet.pitch packet.yaw ::
                  receiveLoop (rest.drop 11) pc orc
            else
              Event.decodeCall (b :: rest.take 11) :: Event.crcError ::
                receiveLoop (rest.drop 11) pc orc
      else []
    else Event.warnInvalidHeader b :: receiveLoop rest pc orc
termination_by input.length
decreasing_by all_goals simp [List.length_drop] <;> omega

/-- Specification predicate: an event is either not a decode call, or a
decode call whose frame starts with the header sentinel `0x5A`. -/
def decodeHeaderOk : Event → Bool
  | Event.decodeCall f => f.headD 0 == 0x5A
  | _ => true

/-- Decoding a buffer of exactly 12 bytes with `fromVector` decodes the declared fields
in order, little-endian. -/
lemma fromVector_ok_of_length (bytes : List Nat) (h : bytes.length = 12) :
    fromVector bytes = .ok
      { header := bytes.getD 0 0
        robot_color := bytes.getD 1 0
        pitch := u32ofBytes (bytes.getD 2 0) (bytes.getD 3 0) (bytes.getD 4 0) (bytes.getD 5 0)
        yaw := u32ofBytes (bytes.getD 6 0) (bytes.getD 7 0) (bytes.getD 8 0) (bytes.getD 9 0)
        checksum := u16ofBytes (bytes.getD 10 0) (bytes.getD 11 0) } := by
  rcases bytes with _ | ⟨b0, _ | ⟨b1, _ | ⟨b2, _ | ⟨b3, _ | ⟨b4, _ | ⟨b5, _ | ⟨b6,
    _ | ⟨b7, _ | ⟨b8, _ | ⟨b9, _ | ⟨b10, _ | ⟨b11, _ | ⟨b12, rest⟩⟩⟩⟩⟩⟩⟩⟩⟩⟩⟩⟩⟩ <;>
    first | rfl | simp at h

/-- Decoding a buffer whose length differs from 12 with `fromVector` fails with
`MalformedPacket`. -/
lemma fromVector_error_of_length (bytes : List Nat) (h : bytes.length ≠ 12) :
    fromVector bytes = .error .MalformedPacket := by
  rcases bytes with _ | ⟨b0, _ | ⟨b1, _ | ⟨b2, _ | ⟨b3, _ | ⟨b4, _ | ⟨b5, _ | ⟨b6,
    _ | ⟨b7, _ | ⟨b8, _ | ⟨b9, _ | ⟨b10, _ | ⟨b11, _ | ⟨b12, rest⟩⟩⟩⟩⟩⟩⟩⟩⟩⟩⟩⟩⟩ <;>
    first | rfl | simp at h

/-- Every frame the receive loop hands to the decoder starts with `0x5A`. -/
lemma receiveLoop_decode_header (input : List Nat) (pc : Int) (orc : List (Bool × Bool)) :
    (receiveLoop input pc orc).all decodeHeaderOk = true := by
  induction input, pc, orc using receiveLoop.induct with
  | case1 pc orc => simp [receiveLoop]
  | case2 pc orc b rest hb hlen a hpk ih =>
      rw [receiveLoop]
      simp_all [decodeHeaderOk]
  | case3 pc orc b rest hb hlen packet hpk hcrc hne ih =>
      rw [receiveLoop]
      simp_all [decodeHeaderOk]
  | case4 pc orc b rest hb hlen packet hpk hcrc hne ih =>
      rw [receiveLoop]
      simp_all [decodeHeaderOk]
  | case5 pc orc b rest hb hlen packet hpk hcrc ih =>
      rw [receiveLoop]
      simp_all [decodeHeaderOk]
  | case6 pc orc b rest hb hlen =>
      rw [receiveLoop]
      simp_all
  | case7 pc orc b rest hb ih =>
      rw [receiveLoop]
      simp_all [decodeHeaderOk]

/-- Observable outcome of one `reopenPort` call: how many `open()` attempts
were made, how many fixed 1-second waits elapsed, and whether the port was
reopened. -/
structure ReopenResult where
  opens : Nat
  sleeps : Nat
  success : Bool
deriving DecidableEq

/-- Model of `RMSerialDriver::reopenPort` (source lines 242-258): closes the port if
open, attempts `open()`; on failure it logs, and while `rclcpp::ok()` holds
it sleeps 1 second and recurses.  `outcomes` models the success of each
successive `open()` call ([] meaning no outcome is available any more) and
`ok` models `rclcpp::ok()` at the retry check. -/
def reopenPort (outcomes : List Bool) (ok : Bool) : ReopenResult :=
  match outcomes with
  | [] => { opens := 0, sleeps := 0, success := false }
  | o :: rest =>
    if o then { opens := 1, sleeps := 0, success := true }
    else if ok then
      { opens := (reopenPort rest ok).opens + 1
        sleeps := (reopenPort rest ok).sleeps + 1
        success := (reopenPort rest ok).success }
    else { opens := 1, sleeps := 0, success := false }

/-- Source lines 45-51: the startup remote-parameter fetch requests exactly
the parameter names in this list. -/
def requestedStartupParams : List String := ["detect_color"]

/-- Source line 49: the fetch's completion callback reads
`result.at(1).as_int()`; modelled with the checked access `List.get?`,
`none` standing for the `std::out_of_range` branch of `at`. -/
def startupColorRead (result : List Int) : Option Int := result.get? 1

end RmSerialDriver

namespace RmSerialDriver

/-- C1: Checksum round-trip — for every byte buffer sized to include the
trailing 2-byte checksum field, appending the CRC-16 checksum and then
verifying the resulting buffer returns true. -/
theorem verify_append_roundtrip (B : List Nat) (h : 2 ≤ B.length) :
    Verify_CRC16_Check_Sum (Append_CRC16_Check_Sum B) = true := by
  unfold Append_CRC16_Check_Sum
  rw [if_neg (by omega)]
  exact verify_body_append (B.take (B.length - 2))

/-- C1 witness: the round-trip property evaluated on the concrete 5-byte
buffer `[1, 2, 3, 0, 0]`. -/
theorem verify_append_roundtrip_witness :
    Verify_CRC16_Check_Sum (Append_CRC16_Check_Sum [1, 2, 3, 0, 0]) = true :=
  verify_append_roundtrip [1, 2, 3, 0, 0] (by decide)

/-- C2: Send-frame encoding — every `sendData` invocation writes exactly one
frame; that frame is 29 bytes, packed little-endian in declared order
(target_found at 0, target_color at 1, task_mode = 0 at 2, x/y/z at offsets
3/7/11, vx/vy/vz at 15/19/23), the target_color byte is 1 exactly when the
cached present-color equals 0, and the final 2 bytes are the little-endian
CRC-16 of the first 27 bytes. -/
theorem sendData_frame_layout (pc : Int) (msg : Target) (wOk : Bool) :
    ∃ f, (sendData pc msg wOk).frames = [f] ∧
      f.length = 29 ∧
      f.getD 0 0 = (if msg.target_found then 1 else 0) ∧
      f.getD 1 0 = (if pc = 0 then 1 else 0) ∧
      f.getD 2 0 = 0 ∧
      (f.drop 3).take 4 = u32le msg.x ∧
      (f.drop 7).take 4 = u32le msg.y ∧
      (f.drop 11).take 4 = u32le msg.z ∧
      (f.drop 15).take 4 = u32le msg.vx ∧
      (f.drop 19).take 4 = u32le msg.vy ∧
      (f.drop 23).take 4 = u32le msg.vz ∧
      f.drop 27 = [compute (f.take 27) % 256, compute (f.take 27) / 256 % 256] := by
  obtain ⟨tf, x, y, z, vx, vy, vz⟩ := msg
  have key : Append_CRC16_Check_Sum (toVector
      { target_found := tf, target_color := pc == 0, task_mode := 0,
        x := x, y := y, z := z, vx := vx, vy := vy, vz := vz, checksum := 0 })
      = ((if tf then 1 else 0) :: (if (pc == 0 : Bool) then 1 else 0) :: 0 ::
          (u32le x ++ u32le y ++ u32le z ++ u32le vx ++ u32le vy ++ u32le vz)) ++
        [compute ((if tf then 1 else 0) :: (if (pc == 0 : Bool) then 1 else 0) :: 0 ::
          (u32le x ++ u32le y ++ u32le z ++ u32le vx ++ u32le vy ++ u32le vz)) % 256,
         compute ((if tf then 1 else 0) :: (if (pc == 0 : Bool) then 1 else 0) :: 0 ::
          (u32le x ++ u32le y ++ u32le z ++ u32le vx ++ u32le vy ++ u32le vz)) / 256 % 256] := by
    have hTV : toVector
        { target_found := tf, target_color := pc == 0, task_mode := 0,
          x := x, y := y, z := z, vx := vx, vy := vy, vz := vz, checksum := 0 }
        = ((if tf then 1 else 0) :: (if (pc == 0 : Bool) then 1 else 0) :: 0 ::
            (u32le x ++ u32le y ++ u32le z ++ u32le vx ++ u32le vy ++ u32le vz)) ++
          ([0, 0] : List Nat) := by
      simp [toVector]
    rw [hTV, append_body]
  refine ⟨_, rfl, ?_⟩
  dsimp only [sendData]
  rw [key]
  refine ⟨?_, ?_, ?_, ?_, ?_, ?_, ?_, ?_, ?_, ?_, ?_⟩
  · simp [u32le]
  · simp [u32le]
  · by_cases hpc : pc = 0 <;> simp [hpc, u32le]
  · simp [u32le]
  · simp [u32le]
  · simp [u32le]
  · simp [u32le]
  · simp [u32le]
  · simp [u32le]
  · simp [u32le]
  · simp [u32le]

/-- C7: Send-path error reporting — when the port write raises, `sendData`
invokes the reconnection policy (`reopenPort`), reports the failure (error
log / `sendFailed` outcome) for that attempt, and writes the frame only once
(no automatic retry of the same command). -/
theorem sendData_error_path (pc : Int) (msg : Target) :
    (sendData pc msg false).reconnected = true ∧
    (sendData pc msg false).outcome = SendOutcome.sendFailed ∧
    (sendData pc msg false).error_logged = true ∧
    (sendData pc msg false).latency_published = false ∧
    (sendData pc msg false).frames.length = 1 := by
  simp [sendData]

/-- C8: Decode length guard — `fromVector` on a buffer whose length differs
from `sizeof(ReceivePacket)` = 12 fails with `MalformedPacket` (and, being a
total function over the list, never reads out of bounds); on a buffer of
exactly 12 bytes it reinterprets the bytes into the declared fields in
order, little-endian. -/
theorem fromVector_length_guard (bytes : List Nat) :
    (bytes.length ≠ 12 → fromVector bytes = .error .MalformedPacket) ∧
    (bytes.length = 12 → fromVector bytes = .ok
      { header := bytes.getD 0 0
        robot_color := bytes.getD 1 0
        pitch := u32ofBytes (bytes.getD 2 0) (bytes.getD 3 0) (bytes.getD 4 0) (bytes.getD 5 0)
        yaw := u32ofBytes (bytes.getD 6 0) (bytes.getD 7 0) (bytes.getD 8 0) (bytes.getD 9 0)
        checksum := u16ofBytes (bytes.getD 10 0) (bytes.getD 11 0) }) := by
  rcases bytes with _ | ⟨b0, _ | ⟨b1, _ | ⟨b2, _ | ⟨b3, _ | ⟨b4, _ | ⟨b5, _ | ⟨b6,
    _ | ⟨b7, _ | ⟨b8, _ | ⟨b9, _ | ⟨b10, _ | ⟨b11, _ | ⟨b12, rest⟩⟩⟩⟩⟩⟩⟩⟩⟩⟩⟩⟩⟩ <;>
    refine ⟨fun h => ?_, fun h => ?_⟩ <;> first | rfl | simp at h

/-- C8 witness: the length guard evaluated on the valid 12-byte buffer
`[0x5A, 1, 2, 0, 0, 0, 3, 0, 0, 0, 7, 9]` and the short buffer `[1, 2]`. -/
theorem fromVector_length_guard_witness :
    fromVector [0x5A, 1, 2, 0, 0, 0, 3, 0, 0, 0, 7, 9]
        = .ok { header := 0x5A, robot_color := 1, pitch := 2, yaw := 3, checksum := 9 * 256 + 7 } ∧
    fromVector [1, 2] = .error .MalformedPacket := by
  constructor
  · have h := (fromVector_length_guard [0x5A, 1, 2, 0, 0, 0, 3, 0, 0, 0, 7, 9]).2 (by decide)
    rw [h]
    simp [u32ofBytes, u16ofBytes]
  · exact (fromVector_length_guard [1, 2]).1 (by decide)

/-- C3: Receive-loop resynchronization — a header byte not equal to `0x5A`
is logged as a warning and exactly that one byte is discarded, the loop
continuing on the rest of the stream; and no frame whose first byte differs
from `0x5A` is ever handed to the packet decoder. -/
theorem receiveLoop_resync (b : Nat) (rest : List Nat) (pc : Int)
    (orc : List (Bool × Bool)) (hb : b ≠ 0x5A) :
    receiveLoop (b :: rest) pc orc
      = Event.warnInvalidHeader b :: receiveLoop rest pc orc ∧
    (receiveLoop (b :: rest) pc orc).all decodeHeaderOk = true := by
  constructor
  · rw [receiveLoop]
    simp [hb]
  · exact receiveLoop_decode_header _ _ _

/-- C3 witness: resynchronization evaluated on the single invalid header
byte `0x00`. -/
theorem receiveLoop_resync_witness :
    receiveLoop [0] 0 [] = Event.warnInvalidHeader 0 :: receiveLoop [] 0 [] ∧
    (receiveLoop [0] 0 []).all decodeHeaderOk = true :=
  receiveLoop_resync 0 [] 0 [] (by decide)

/-- C4: Checksum-failure handling — when a complete frame fails CRC-16
verification, the loop logs the CRC error, emits no telemetry and no color
request for that frame, does not retry it, and continues with the bytes
after the frame, cached state unchanged; the failure is consumed inside the
loop (the remaining stream is processed exactly as before). -/
theorem receiveLoop_crc_fail (rest : List Nat) (pc : Int) (orc : List (Bool × Bool))
    (hlen : 11 ≤ rest.length)
    (hcrc : Verify_CRC16_Check_Sum (0x5A :: rest.take 11) = false) :
    receiveLoop (0x5A :: rest) pc orc
      = Event.decodeCall (0x5A :: rest.take 11) :: Event.crcError ::
        receiveLoop (rest.drop 11) pc orc := by
  have h12 : (0x5A :: rest.take 11 : List Nat).length = 12 := by
    simp [List.length_take]
    omega
  rw [receiveLoop, fromVector_ok_of_length _ h12]
  simp [hlen, hcrc]

/-- C4 witness: the CRC-failure path evaluated on the all-zero frame body
(whose stored checksum `[0, 0]` is wrong). -/
theorem receiveLoop_crc_fail_witness :
    receiveLoop (0x5A :: List.replicate 11 0) 0 []
      = Event.decodeCall (0x5A :: (List.replicate 11 0).take 11) :: Event.crcError ::
        receiveLoop ((List.replicate 11 0).drop 11) 0 [] :=
  receiveLoop_crc_fail (List.replicate 11 0) 0 [] (by decide) (by decide)

/-- C5: Color-mismatch side effect — for a decoded, checksum-verified frame,
when the decoded `robot_color` differs from the cached present-color the
loop invokes the color-change collaborator with the decoded color (after
publishing the telemetry); when they are equal no request is made. -/
theorem receiveLoop_color_mismatch (rest : List Nat) (pc : Int)
    (orc : List (Bool × Bool)) (packet : ReceivePacket)
    (hlen : 11 ≤ rest.length)
    (hpk : fromVector (0x5A :: rest.take 11) = .ok packet)
    (hcrc : Verify_CRC16_Check_Sum (0x5A :: rest.take 11) = true) :
    ((packet.robot_color : Int) ≠ pc →
      receiveLoop (0x5A :: rest) pc orc
        = Event.decodeCall (0x5A :: rest.take 11) ::
          Event.telemetry packet.pitch packet.yaw ::
          Event.colorRequest packet.robot_color ::
          receiveLoop (rest.drop 11)
            (requestforChangeColor (orc.headD (false, false)).1
              (orc.headD (false, false)).2 pc packet.robot_color).present_color
            orc.tail) ∧
    ((packet.robot_color : Int) = pc →
      receiveLoop (0x5A :: rest) pc orc
        = Event.decodeCall (0x5A :: rest.take 11) ::
          Event.telemetry packet.pitch packet.yaw ::
          receiveLoop (rest.drop 11) pc orc) := by
  constructor
  · intro hne
    rw [receiveLoop, hpk]
    simp [hlen, hcrc, hne]
  · intro heq
    rw [receiveLoop, hpk]
    simp [hlen, hcrc, heq]

/-- C5 witness: the mismatch branch evaluated on the verified frame
`[0x5A, 1, 0, 0, 0, 0, 0, 0, 0, 0, 52, 99]` (robot_color = 1) against
cached present-color 0. -/
theorem receiveLoop_color_mismatch_witness :
    receiveLoop (0x5A :: [1, 0, 0, 0, 0, 0, 0, 0, 0, 52, 99]) 0 []
      = Event.decodeCall (0x5A :: ([1, 0, 0, 0, 0, 0, 0, 0, 0, 52, 99] : List Nat).take 11) ::
        Event.telemetry 0 0 ::
        Event.colorRequest 1 ::
        receiveLoop (([1, 0, 0, 0, 0, 0, 0, 0, 0, 52, 99] : List Nat).drop 11)
          (requestforChangeColor false false 0 1).present_color [] :=
  (receiveLoop_color_mismatch [1, 0, 0, 0, 0, 0, 0, 0, 0, 52, 99] 0 []
    ⟨0x5A, 1, 0, 0, 25396⟩ (by decide) (by rfl) (by decide)).1 (by decide)

/-- C6: Reconnection termination and retry count — for `n` open failures
followed by one success (process alive throughout), `reopenPort` returns
only after the success, having invoked `open` exactly `n + 1` times with one
fixed 1-second wait after each failure; and when the process has signalled
shutdown it returns without success after the failed attempt, without
retrying. -/
theorem reopenPort_retry (n : Nat) :
    reopenPort (List.replicate n false ++ [true]) true
      = { opens := n + 1, sleeps := n, success := true } ∧
    (∀ rest : List Bool, reopenPort (false :: rest) false
      = { opens := 1, sleeps := 0, success := false }) := by
  constructor
  · induction n with
    | zero => rfl
    | succ n ih => simp [List.replicate_succ, reopenPort, ih]
  · intro rest
    rfl

/-- C9: Fail-open color state — whenever the color-change request is
rejected by the external authority or cannot be delivered, the cached
present-color is left unchanged and the failure is logged; and at most one
`set_parameters` attempt is made per mismatch detection. -/
theorem requestforChangeColor_fail_open (serviceReady setSuccess : Bool)
    (pc : Int) (color : Nat)
    (h : serviceReady = false ∨ setSuccess = false) :
    (requestforChangeColor serviceReady setSuccess pc color).present_color = pc ∧
    (requestforChangeColor serviceReady setSuccess pc color).logged_failure = true ∧
    (requestforChangeColor serviceReady setSuccess pc color).set_param_calls ≤ 1 := by
  rcases h with h | h
  · simp [requestforChangeColor, h]
  · cases serviceReady <;> simp [requestforChangeColor, h]

/-- C9 witness: a delivered but rejected request against cached
present-color `-1`. -/
theorem requestforChangeColor_fail_open_witness :
    (requestforChangeColor true false (-1) 1).present_color = -1 ∧
    (requestforChangeColor true false (-1) 1).logged_failure = true ∧
    (requestforChangeColor true false (-1) 1).set_param_calls ≤ 1 :=
  requestforChangeColor_fail_open true false (-1) 1 (Or.inr rfl)

/-- C10: the startup fetch requests exactly one parameter, yet the
completion callback reads index 1 of the result vector, so on a result
vector containing exactly the requested parameters the access is out of
bounds — the claimed in-bounds property fails (the code's `.at(1)` is a
slip for `.at(0)`). -/
theorem startup_param_read_oob :
    requestedStartupParams.length = 1 ∧
    startupColorRead (List.replicate requestedStartupParams.length 0) = none := by
  constructor
  · rfl
  · rfl

end RmSerialDriver
